import Mathlib

/-
Shallow embedding of src/gcloud/logging/logger.py.

The module defines two classes, Logger and Batch.  Python dictionaries are
modelled as association lists inside an inductive type of Python objects
(PyObj), Python exceptions as an error type (PyError), and each network
dispatch (client.connection.api_request) is recorded as a Request value
returned by the operation instead of being performed.  Fallible code
returns Except PyError.
-/

namespace GcloudLogging

/-- A Python object as manipulated by logger.py: strings, integers,
booleans, dictionaries (association lists, preserving key insertion
order), lists, and protobuf message objects.  A protobuf message is
opaque to logger.py except through MessageToJson; the model carries the
parsed form of its canonical JSON rendering in the constructor. -/
inductive PyObj where
  | str (s : String)
  | int (n : Int)
  | bool (b : Bool)
  | dict (fields : List (String × PyObj))
  | list (elems : List PyObj)
  | protoMessage (rendered : PyObj)

/-- Python exceptions raised (or propagated) by the code under study. -/
inductive PyError where
  | attributeError (attr : String)
  | valueError (msg : String)
  | typeError
  | transportError (msg : String)
deriving Repr, DecidableEq

/-- Lookup of a key in a list of dictionary fields: first match wins,
none when the key is absent. -/
def lookupFields : List (String × PyObj) → String → Option PyObj
  | [], _ => none
  | (k, v) :: rest, key => if k = key then some v else lookupFields rest key

/-- Dictionary key lookup on a PyObj; none on non-dictionaries. -/
def PyObj.lookup (o : PyObj) (key : String) : Option PyObj :=
  match o with
  | .dict fields => lookupFields fields key
  | _ => none

/-- Model of json.loads(MessageToJson(message)) from lines 189-190 and
334-335 of logger.py: for a protobuf message the composite yields the
parsed form of its canonical JSON rendering (carried by the
protoMessage constructor); MessageToJson fails on a non-message. -/
def MessageToJson : PyObj → Except PyError PyObj
  | .protoMessage rendered => .ok rendered
  | _ => .error .typeError

/-- The injected client collaborator: logger.py only reads its project
attribute and calls client.connection.api_request / client.list_entries. -/
structure Client where
  project : String
deriving Repr, DecidableEq

/-- One call to client.connection.api_request(method, path, data). -/
structure Request where
  method : String
  path : String
  data : Option PyObj

/-- The Logger class (lines 22-100 of logger.py): fields set by __init__.
The client field models self._client, returned unchanged by the client
property. -/
structure Logger where
  name : String
  client : Client
  labels : Option PyObj

/-- The project property (lines 49-52): the project bound to the client. -/
def Logger.project (l : Logger) : String :=
  l.client.project

/-- The full_name property (lines 54-57):
"projects/%s/logs/%s" % (self.project, self.name). -/
def Logger.full_name (l : Logger) : String :=
  "projects/" ++ l.project ++ "/logs/" ++ l.name

/-- Attribute lookup of "path" on a Logger instance.  The Logger class in
logger.py defines the attributes name, _client, labels and the
properties client, project, full_name, but no attribute or property
named path, and it has no __getattr__ hook; in Python, evaluating
logger.path therefore raises AttributeError unconditionally.  Used by
Batch.commit at line 324 (data = ... self.logger.path ...). -/
def Logger.path : Logger → Except PyError PyObj :=
  fun _ => .error (.attributeError "path")

/-- _require_client (lines 59-71): use the over-ride when given, else the
client stored on the logger. -/
def Logger._require_client (l : Logger) (client : Option Client) : Client :=
  match client with
  | none => l.client
  | some c => c

/-- _get_labels (lines 86-100): the passed-in labels if not None, else the
default labels configured on the logger instance. -/
def Logger._get_labels (l : Logger) (labels : Option PyObj) : Option PyObj :=
  match labels with
  | some v => some v
  | none => l.labels

/-- log_text (lines 102-135).  Returns the resolved client and the one
request dispatched via client.connection.api_request.  The entry dict is
built with keys logName, textPayload, resource; the labels key is then
added at the end when the effective labels are not None. -/
def Logger.log_text (l : Logger) (text : String) (client : Option Client)
    (labels : Option PyObj) : Client × Request :=
  let client := l._require_client client
  let entry := [("logName", PyObj.str l.full_name),
                ("textPayload", PyObj.str text),
                ("resource", PyObj.dict [("type", PyObj.str "global")])]
  let labels := l._get_labels labels
  let entry := match labels with
    | some v => entry ++ [("labels", v)]
    | none => entry
  (client,
   ⟨"POST", "/entries:write",
    some (PyObj.dict [("entries", PyObj.list [PyObj.dict entry])])⟩)

/-- log_struct (lines 137-170): same shape as log_text with the payload
under the key jsonPayload. -/
def Logger.log_struct (l : Logger) (info : PyObj) (client : Option Client)
    (labels : Option PyObj) : Client × Request :=
  let client := l._require_client client
  let entry := [("logName", PyObj.str l.full_name),
                ("jsonPayload", info),
                ("resource", PyObj.dict [("type", PyObj.str "global")])]
  let labels := l._get_labels labels
  let entry := match labels with
    | some v => entry ++ [("labels", v)]
    | none => entry
  (client,
   ⟨"POST", "/entries:write",
    some (PyObj.dict [("entries", PyObj.list [PyObj.dict entry])])⟩)

/-- log_proto (lines 172-207): renders the message with
json.loads(MessageToJson(message)) and places the result under the key
protoPayload; otherwise identical to log_text. -/
def Logger.log_proto (l : Logger) (message : PyObj) (client : Option Client)
    (labels : Option PyObj) : Except PyError (Client × Request) :=
  let client := l._require_client client
  match MessageToJson message with
  | .error e => .error e
  | .ok as_json =>
    let entry := [("logName", PyObj.str l.full_name),
                  ("protoPayload", as_json),
                  ("resource", PyObj.dict [("type", PyObj.str "global")])]
    let labels := l._get_labels labels
    let entry := match labels with
      | some v => entry ++ [("labels", v)]
      | none => entry
    .ok (client,
         ⟨"POST", "/entries:write",
          some (PyObj.dict [("entries", PyObj.list [PyObj.dict entry])])⟩)

/-- The argument record of the delegated call
self.client.list_entries(projects=..., filter_=..., order_by=...,
page_size=..., page_token=...) at lines 262-264. -/
structure ListEntriesCall where
  client : Client
  projects : Option (List String)
  filter_ : String
  order_by : Option String
  page_size : Option Nat
  page_token : Option String
deriving Repr, DecidableEq

/-- list_entries (lines 223-264): builds log_filter = "logName:%s" % name,
combines a caller filter as "%s AND %s" % (filter_, log_filter), and
delegates to self.client.list_entries with all other arguments
forwarded unchanged.  The model returns the delegated call record. -/
def Logger.list_entries (l : Logger) (projects : Option (List String))
    (filter_ : Option String) (order_by : Option String)
    (page_size : Option Nat) (page_token : Option String) : ListEntriesCall :=
  let log_filter := "logName:" ++ l.name
  let filter_ := match filter_ with
    | some f => f ++ " AND " ++ log_filter
    | none => log_filter
  ⟨l.client, projects, filter_, order_by, page_size, page_token⟩

/-- The Batch class state (lines 267-281): the owning logger, the ordered
list of accumulated (kind, value) pairs, and the bound client. -/
structure Batch where
  logger : Logger
  entries : List (String × PyObj)
  client : Client

/-- Logger.batch (lines 73-84): resolve the client, then Batch(self, client)
whose __init__ starts with an empty entries list. -/
def Logger.batch (l : Logger) (client : Option Client) : Batch :=
  let client := l._require_client client
  ⟨l, [], client⟩

/-- Batch.log_text (lines 290-296): self.entries.append(("text", text)). -/
def Batch.log_text (b : Batch) (text : String) : Batch :=
  { b with entries := b.entries ++ [("text", PyObj.str text)] }

/-- Batch.log_struct (lines 298-304): self.entries.append(("struct", info)). -/
def Batch.log_struct (b : Batch) (info : PyObj) : Batch :=
  { b with entries := b.entries ++ [("struct", info)] }

/-- Batch.log_proto (lines 306-312): self.entries.append(("proto", message)),
storing the message unrendered. -/
def Batch.log_proto (b : Batch) (message : PyObj) : Batch :=
  { b with entries := b.entries ++ [("proto", message)] }

/-- The body of the loop in Batch.commit (lines 328-339): maps one
accumulated (entry_type, entry) pair to its wire dict, or raises
ValueError("Unknown entry type: %s" % entry_type) on any other kind. -/
def Batch.entry_info (kv : String × PyObj) : Except PyError PyObj :=
  let entry_type := kv.1
  let entry := kv.2
  if entry_type = "text" then .ok (PyObj.dict [("textPayload", entry)])
  else if entry_type = "struct" then .ok (PyObj.dict [("structPayload", entry)])
  else if entry_type = "proto" then
    match MessageToJson entry with
    | .error e => .error e
    | .ok as_json => .ok (PyObj.dict [("protoPayload", as_json)])
  else .error (.valueError ("Unknown entry type: " ++ entry_type))

/-- The loop of Batch.commit over self.entries: appends each mapped entry
in order, propagating the first raised error. -/
def Batch.build_entries : List (String × PyObj) → Except PyError (List PyObj)
  | [] => .ok []
  | kv :: rest =>
    match Batch.entry_info kv with
    | .error e => .error e
    | .ok info =>
      match Batch.build_entries rest with
      | .error e => .error e
      | .ok infos => .ok (info :: infos)

/-- The observable outcome of one Batch.commit call: the result (ok, or the
exception propagated to the caller), the batch state after the call, the
client resolved at entry, and the list of api_request calls performed. -/
structure CommitOutcome where
  result : Except PyError Unit
  batch : Batch
  client : Client
  calls : List Request

/-- Batch.commit (lines 314-343).  Resolves the client (the over-ride if
given, else the client stored on the batch), builds the request body
with keys logName (read from self.logger.path), resource and entries,
performs one api_request, and clears self.entries only after the
api_request returns.  Any exception leaves the entry list as it was.
The transport is passed in as the dispatch argument. -/
def Batch.commit (b : Batch) (client : Option Client)
    (dispatch : Client → Request → Except PyError Unit) : CommitOutcome :=
  let client := match client with
    | none => b.client
    | some c => c
  match b.logger.path with
  | .error e => ⟨.error e, b, client, []⟩
  | .ok logName =>
    match Batch.build_entries b.entries with
    | .error e => ⟨.error e, b, client, []⟩
    | .ok entries =>
      let data := PyObj.dict
        [("logName", logName),
         ("resource", PyObj.dict [("type", PyObj.str "global")]),
         ("entries", PyObj.list entries)]
      let req : Request := ⟨"POST", "/entries:write", some data⟩
      match dispatch client req with
      | .error e => ⟨.error e, b, client, [req]⟩
      | .ok _ => ⟨.ok (), { b with entries := [] }, client, [req]⟩

/-- The observable outcome of Batch.__exit__: the result seen by the code
surrounding the with-block (ok, or the propagated exception), the batch
state afterwards, and the commit invocations triggered. -/
structure ExitOutcome where
  result : Except PyError Unit
  batch : Batch
  commits : List CommitOutcome

/-- Batch.__exit__ (lines 286-288): when the block raised no exception,
calls self.commit() (no client argument); when the block raised, does
nothing, so the exception propagates unchanged (the method returns
None, which does not suppress it). -/
def Batch.exit (b : Batch) (exc_type : Option PyError)
    (dispatch : Client → Request → Except PyError Unit) : ExitOutcome :=
  match exc_type with
  | none =>
    let o := b.commit none dispatch
    ⟨o.result, o.batch, [o]⟩
  | some e => ⟨.error e, b, []⟩

/-- The entries value of a request body, when the body is a dict whose
entries key holds a list. -/
def Request.entriesList (r : Request) : Option (List PyObj) :=
  match r.data with
  | some d =>
    match d.lookup "entries" with
    | some (.list es) => some es
    | _ => none
  | none => none

/-- The first element of the entries value of a request body. -/
def Request.firstEntry (r : Request) : Option PyObj :=
  match r.entriesList with
  | some (e :: _) => some e
  | _ => none

/-- The number of entries carried by a request body. -/
def Request.entryCount (r : Request) : Option Nat :=
  (r.entriesList).map List.length

/-- A field of the first entry of a request body. -/
def Request.entryField (r : Request) (k : String) : Option PyObj :=
  (r.firstEntry).bind (fun e => e.lookup k)

/-- A transport whose api_request always succeeds. -/
def okDispatch : Client → Request → Except PyError Unit :=
  fun _ _ => .ok ()

/-- A concrete client bound to project PROJECT. -/
def exClient : Client := ⟨"PROJECT"⟩

/-- A concrete logger named LOG with no default labels. -/
def exLogger : Logger := ⟨"LOG", exClient, none⟩

/-- A concrete structured payload. -/
def exInfo : PyObj := PyObj.dict [("b", PyObj.int 1)]

/-- A concrete batch accumulated through the public methods:
log_text "a", then log_struct exInfo, then log_text "c". -/
def exBatch : Batch :=
  ((exLogger.batch none).log_text "a" |>.log_struct exInfo).log_text "c"

/-- One of the three kind tags a pair accumulated through the public
Batch methods carries. -/
def validKind (kv : String × PyObj) : Bool :=
  kv.1 == "text" || kv.1 == "struct" || kv.1 == "proto"

/-- One call to a public accumulation method of Batch. -/
inductive BatchOp where
  | text (s : String)
  | struct (v : PyObj)
  | proto (m : PyObj)

/-- Perform one public accumulation call on a batch. -/
def Batch.apply (b : Batch) : BatchOp → Batch
  | .text s => b.log_text s
  | .struct v => b.log_struct v
  | .proto m => b.log_proto m

/-- Perform a sequence of public accumulation calls on a batch. -/
def Batch.applyAll (b : Batch) (ops : List BatchOp) : Batch :=
  ops.foldl Batch.apply b

lemma validKind_apply (b : Batch) (op : BatchOp)
    (h : b.entries.all validKind = true) :
    (b.apply op).entries.all validKind = true := by
  cases op <;>
    simp [Batch.apply, Batch.log_text, Batch.log_struct, Batch.log_proto,
          List.all_append, h, validKind]

lemma validKind_applyAll :
    ∀ (ops : List BatchOp) (b : Batch), b.entries.all validKind = true →
      (b.applyAll ops).entries.all validKind = true := by
  intro ops
  induction ops with
  | nil => intro b h; exact h
  | cons op rest ih =>
    intro b h
    exact ih (b.apply op) (validKind_apply b op h)

/-- Claim C1: commit is claimed to build exactly one request body whose
logName equals the owning Logger full_name and whose resource is the
dict with type global.  In the code, full_name evaluates to
projects/PROJECT/logs/LOG, but commit reads self.logger.path, an
attribute the Logger class never defines, so commit raises
AttributeError and performs no api_request at all: no body is built. -/
theorem C1_commit_crashes_on_logger_path :
    exLogger.full_name = "projects/PROJECT/logs/LOG" ∧
    (((exLogger.batch none).log_text "TEXT").commit none okDispatch).result
      = .error (.attributeError "path") ∧
    (((exLogger.batch none).log_text "TEXT").commit none okDispatch).calls
      = [] := by
  exact ⟨rfl, rfl, rfl⟩

/-- Claim C3: for every batch, every client over-ride and every transport,
commit raises AttributeError at self.logger.path before reaching the
api_request, leaves the accumulated entries exactly as they were, and
performs zero dispatches; hence no commit dispatch ever succeeds and
the entry list is never cleared. -/
theorem C3_commit_never_dispatches (b : Batch) (client : Option Client)
    (dispatch : Client → Request → Except PyError Unit) :
    (b.commit client dispatch).result = .error (.attributeError "path") ∧
    (b.commit client dispatch).batch = b ∧
    (b.commit client dispatch).calls = [] := by
  exact ⟨rfl, rfl, rfl⟩

/-- Claim C4: exiting the scope with no error triggers exactly one commit
call, whose resolved client is the client bound to the batch; exiting
via a raised error triggers zero commits, leaves the batch (hence its
accumulated entries) unchanged, and propagates the error unchanged. -/
theorem C4_exit_contract (b : Batch)
    (dispatch : Client → Request → Except PyError Unit) :
    (b.exit none dispatch).commits = [b.commit none dispatch] ∧
    (b.exit none dispatch).result = (b.commit none dispatch).result ∧
    (b.exit none dispatch).batch = (b.commit none dispatch).batch ∧
    (b.commit none dispatch).client = b.client ∧
    (∀ e : PyError, b.exit (some e) dispatch = ⟨.error e, b, []⟩) := by
  exact ⟨rfl, rfl, rfl, rfl, fun e => rfl⟩

/-- Claim C5: the three accumulation calls preserve insertion order in the
entry list, but the following commit dispatches zero write requests:
it raises AttributeError at self.logger.path, so no request carrying
the accumulated entries is ever sent. -/
theorem C5_commit_dispatches_nothing :
    exBatch.entries = [("text", PyObj.str "a"), ("struct", exInfo),
                       ("text", PyObj.str "c")] ∧
    (exBatch.commit none okDispatch).result
      = .error (.attributeError "path") ∧
    (exBatch.commit none okDispatch).calls = [] := by
  exact ⟨rfl, rfl, rfl⟩

/-- Claim C2, counterexample: the claim states that a structured entry is
dispatched under the key structuredPayload.  At the concrete input
exInfo, the single-write entry built by Logger.log_struct has no
structuredPayload field, and neither does the wire dict built for a
struct pair by the loop body of Batch.commit. -/
theorem C2_structuredPayload_absent :
    (exLogger.log_struct exInfo none none).2.entryField "structuredPayload"
      = none ∧
    (Batch.entry_info ("struct", exInfo)).map
      (fun i => i.lookup "structuredPayload") = .ok none := by
  exact ⟨rfl, rfl⟩

/-- Claim C2 as amended: a Logger.log_struct single write carries the
struct under the key jsonPayload, and the loop body of Batch.commit
maps each accumulated struct pair to the dict with single key
structPayload. -/
theorem C2_struct_wire_keys (l : Logger) (info : PyObj)
    (client : Option Client) (labels : Option PyObj) :
    (l.log_struct info client labels).2.entryField "jsonPayload" = some info ∧
    (∀ v : PyObj, Batch.entry_info ("struct", v)
      = .ok (PyObj.dict [("structPayload", v)])) := by
  obtain ⟨nm, cl, ls⟩ := l
  cases labels <;> cases ls <;> exact ⟨rfl, fun v => rfl⟩

/-- Claim C6: with a caller filter f, list_entries delegates with the
combined filter string f followed by " AND " followed by
logName:{name}, and with no caller filter the delegated filter is
exactly logName:{name}; the client used is the one bound to the
logger, and projects, order_by, page_size and page_token are forwarded
unchanged. -/
theorem C6_list_entries_filter (l : Logger) (projects : Option (List String))
    (f : String) (order_by : Option String) (page_size : Option Nat)
    (page_token : Option String) :
    l.list_entries projects (some f) order_by page_size page_token
      = ⟨l.client, projects, f ++ " AND " ++ ("logName:" ++ l.name),
         order_by, page_size, page_token⟩ ∧
    l.list_entries projects none order_by page_size page_token
      = ⟨l.client, projects, "logName:" ++ l.name,
         order_by, page_size, page_token⟩ := by
  exact ⟨rfl, rfl⟩

/-- Claim C7: for each of the three single-entry writes, the labels field
of the dispatched entry equals the entry-level labels when they are
provided, else the default labels of the logger when those are set,
else the entry carries no labels field at all. -/
theorem C7_labels_resolution (l : Logger) (text : String) (info r : PyObj)
    (client : Option Client) (labels : Option PyObj) :
    (l.log_text text client labels).2.entryField "labels"
      = (match labels with | some v => some v | none => l.labels) ∧
    (l.log_struct info client labels).2.entryField "labels"
      = (match labels with | some v => some v | none => l.labels) ∧
    (l.log_proto (.protoMessage r) client labels).map
        (fun p => p.2.entryField "labels")
      = .ok (match labels with | some v => some v | none => l.labels) := by
  obtain ⟨nm, cl, ls⟩ := l
  cases labels <;> cases ls <;> exact ⟨rfl, rfl, rfl⟩

/-- Claim C8: full_name is the concatenation
projects/{project}/logs/{name}, and each of log_text, log_struct and
log_proto dispatches a request carrying exactly one entry, whose
resource field is the dict with type global and whose logName field is
full_name. -/
theorem C8_single_write_shape (l : Logger) (text : String) (info r : PyObj)
    (client : Option Client) (labels : Option PyObj) :
    l.full_name = "projects/" ++ l.client.project ++ "/logs/" ++ l.name ∧
    (l.log_text text client labels).2.entryCount = some 1 ∧
    (l.log_text text client labels).2.entryField "resource"
      = some (PyObj.dict [("type", PyObj.str "global")]) ∧
    (l.log_text text client labels).2.entryField "logName"
      = some (PyObj.str l.full_name) ∧
    (l.log_struct info client labels).2.entryCount = some 1 ∧
    (l.log_struct info client labels).2.entryField "resource"
      = some (PyObj.dict [("type", PyObj.str "global")]) ∧
    (l.log_struct info client labels).2.entryField "logName"
      = some (PyObj.str l.full_name) ∧
    (l.log_proto (.protoMessage r) client labels).map
        (fun p => (p.2.entryCount, p.2.entryField "resource",
                   p.2.entryField "logName"))
      = .ok (some 1, some (PyObj.dict [("type", PyObj.str "global")]),
             some (PyObj.str l.full_name)) := by
  obtain ⟨nm, cl, ls⟩ := l
  cases labels <;> cases ls <;>
    exact ⟨rfl, rfl, rfl, rfl, rfl, rfl, rfl, rfl⟩

/-- Claim C9: the loop body of Batch.commit raises
ValueError("Unknown entry type: bogus") on the kind "bogus", and every
batch populated only through the public accumulation methods carries
only the kinds text, struct and proto, so that branch is unreachable
through the public interface; however commit itself raises
AttributeError at self.logger.path before the loop ever runs, so at a
batch holding a bogus pair the error commit actually raises is the
AttributeError, not the invalid-entry-kind ValueError. -/
theorem C9_unknown_kind_branch :
    Batch.entry_info ("bogus", PyObj.str "x")
      = .error (.valueError "Unknown entry type: bogus") ∧
    ((Batch.mk exLogger [("bogus", PyObj.str "x")] exClient).commit
        none okDispatch).result = .error (.attributeError "path") ∧
    ∀ (l : Logger) (client : Option Client) (ops : List BatchOp),
      ((l.batch client).applyAll ops).entries.all validKind = true := by
  refine ⟨rfl, rfl, fun l client ops => ?_⟩
  exact validKind_applyAll ops (l.batch client) rfl

/-- Claim C10: an empty labels mapping counts as provided: for each of the
three single-entry writes called with labels equal to the empty dict,
_get_labels returns the empty dict without consulting the default
labels of the logger (which remain arbitrary here), and the dispatched
entry carries a labels field equal to the empty dict. -/
theorem C10_empty_labels_counts_as_provided (l : Logger) (text : String)
    (info r : PyObj) (client : Option Client) :
    l._get_labels (some (PyObj.dict [])) = some (PyObj.dict []) ∧
    (l.log_text text client (some (PyObj.dict []))).2.entryField "labels"
      = some (PyObj.dict []) ∧
    (l.log_struct info client (some (PyObj.dict []))).2.entryField "labels"
      = some (PyObj.dict []) ∧
    (l.log_proto (.protoMessage r) client (some (PyObj.dict []))).map
        (fun p => p.2.entryField "labels")
      = .ok (some (PyObj.dict [])) := by
  exact ⟨rfl, rfl, rfl, rfl⟩

end GcloudLogging
